import Mathlib

/-
Verification of nightvac (src/nightvac.py), a preemptive PostgreSQL vacuum
tool: the three candidate-selection queries, the aggregation of their results
into a single work queue, the time-bounded vacuum executor loop, and the
top-level `_run` driver.

The SQL queries are embedded as Lean functions over a list of joined
statistics rows (`pg_class ⋈ pg_namespace ⋈ pg_stat_all_tables`); numeric
columns are modelled as `Int` (counters) and `ℚ` (the `real`-typed
`reltuples` estimate, timestamps in seconds, and the computed ratios), SQL
`NULL` for the ratio column as `Option ℚ`, and `ORDER BY ... DESC NULLS
LAST` as an insertion sort under the corresponding relation.
-/

namespace Nightvac

/-- Configuration profile, mirroring the `Args` dataclass of nightvac.py
(lines 9-19) with its defaults (`0.05 = 1/20`, `0.1 = 1/10`). -/
structure Args where
  conninfo : String
  timeout : Int := 20 * 60
  cost_delay : Int := 2
  cost_limit : Int := 200
  threshold : Int := 50
  scale_factor : ℚ := 1/20
  insert_threshold : Int := 1000
  insert_scale_factor : ℚ := 1/10
  freeze_max_age : Int := 150

/-- One row of the joined statistics relations the three queries read:
`pg_class` (relkind, reltuples, age of relfrozenxid), `pg_namespace`
(nspname) and `pg_stat_all_tables` (n_dead_tup, n_ins_since_vacuum,
last_autovacuum as seconds since epoch, NULL when never autovacuumed). -/
structure PgTable where
  nspname : String
  relname : String
  relkind : Char
  reltuples : ℚ
  n_dead_tup : Int
  n_ins_since_vacuum : Int
  last_autovacuum : Option ℚ
  relfrozenxid_age : Int
deriving DecidableEq

/-- One result row of a selection query: namespace, table name, and the
selected score column (NULL when the denominator `reltuples` is zero). -/
structure Row where
  nspname : String
  relname : String
  score : Option ℚ
deriving DecidableEq

/-- Filter `pg_class.relkind = ANY(ARRAY['r', 't'])` shared by all three
queries (ordinary tables and TOAST tables). -/
def isOrdinaryKind (t : PgTable) : Bool :=
  decide (t.relkind = 'r') || decide (t.relkind = 't')

/-- Cooldown filter `stat.last_autovacuum IS NULL OR NOW() - stat.last_autovacuum
> '1 hour'::INTERVAL` (nightvac.py lines 33 and 49); `now` is `NOW()` in
seconds and one hour is 3600 seconds. True means the row passes the filter. -/
def cooldownPassed (now : ℚ) (t : PgTable) : Bool :=
  match t.last_autovacuum with
  | none => true
  | some ts => decide (now - ts > 3600)

/-- Score column `(stat.n_dead_tup - threshold) / nullif(pg_class.reltuples, 0)`
(line 26): NULL when `reltuples = 0`, otherwise the exact quotient. -/
def deadScore (threshold : Int) (t : PgTable) : Option ℚ :=
  if t.reltuples = 0 then none
  else some (((t.n_dead_tup : ℚ) - (threshold : ℚ)) / t.reltuples)

/-- Score column `(stat.n_ins_since_vacuum - threshold) / nullif(pg_class.reltuples, 0)`
(line 42). -/
def insertScore (threshold : Int) (t : PgTable) : Option ℚ :=
  if t.reltuples = 0 then none
  else some (((t.n_ins_since_vacuum : ℚ) - (threshold : ℚ)) / t.reltuples)

/-- Sort key `age(pg_class.relfrozenxid)` of the freeze query (line 58),
injected into `Option ℚ` so all three queries sort under one relation. -/
def freezeScore (t : PgTable) : Option ℚ :=
  some ((t.relfrozenxid_age : ℚ))

/-- WHERE clause of DEAD_TUPLE_QUERY (lines 31-33): relkind filter, strict
`stat.n_dead_tup > pg_class.reltuples * scale_factor + threshold`, cooldown. -/
def deadTupleCond (threshold : Int) (scale_factor now : ℚ) (t : PgTable) : Bool :=
  isOrdinaryKind t
    && decide ((t.n_dead_tup : ℚ) > t.reltuples * scale_factor + (threshold : ℚ))
    && cooldownPassed now t

/-- WHERE clause of INSERTED_TUPLE_QUERY (lines 47-49): relkind filter, strict
`stat.n_ins_since_vacuum > pg_class.reltuples * scale_factor + threshold`,
cooldown. -/
def insertedTupleCond (threshold : Int) (scale_factor now : ℚ) (t : PgTable) : Bool :=
  isOrdinaryKind t
    && decide ((t.n_ins_since_vacuum : ℚ) > t.reltuples * scale_factor + (threshold : ℚ))
    && cooldownPassed now t

/-- WHERE clause of FREEZE_AGE_QUERY (lines 62-63): relkind filter and strict
`age(pg_class.relfrozenxid) > freeze_max_age * 1000000`. No cooldown. -/
def freezeCond (freeze_max_age : Int) (t : PgTable) : Bool :=
  isOrdinaryKind t && decide (t.relfrozenxid_age > freeze_max_age * 1000000)

/-- Comparison underlying `ORDER BY <key> DESC NULLS LAST` as a Bool:
`scoreDescB a b` holds when `a` may come at or before `b`. -/
def scoreDescB (a b : Option ℚ) : Bool :=
  match a, b with
  | _, none => true
  | none, some _ => false
  | some x, some y => decide (y ≤ x)

/-- Propositional form of `scoreDescB`, the relation the sort is stated in. -/
def scoreDescNullsLast (a b : Option ℚ) : Prop := scoreDescB a b = true

instance : DecidableRel scoreDescNullsLast :=
  fun a b => inferInstanceAs (Decidable (scoreDescB a b = true))

instance : IsTotal (Option ℚ) scoreDescNullsLast where
  total a b := by
    cases a <;> cases b <;> simp [scoreDescNullsLast, scoreDescB] <;> exact le_total _ _

instance : IsTrans (Option ℚ) scoreDescNullsLast where
  trans a b c hab hbc := by
    cases a <;> cases b <;> cases c <;>
      simp_all [scoreDescNullsLast, scoreDescB] <;> exact le_trans hbc hab

/-- Ordering of statistics rows under the ORDER BY key expression `key`. -/
def keyOrder (key : PgTable → Option ℚ) (t u : PgTable) : Prop :=
  scoreDescNullsLast (key t) (key u)

instance (key : PgTable → Option ℚ) : DecidableRel (keyOrder key) :=
  fun t u => inferInstanceAs (Decidable (scoreDescB (key t) (key u) = true))

instance (key : PgTable → Option ℚ) : IsTotal PgTable (keyOrder key) where
  total t u := IsTotal.total (r := scoreDescNullsLast) (key t) (key u)

instance (key : PgTable → Option ℚ) : IsTrans PgTable (keyOrder key) where
  trans a b c hab hbc := IsTrans.trans (r := scoreDescNullsLast) _ _ _ hab hbc

/-- DEAD_TUPLE_QUERY (nightvac.py lines 22-35): filter by `deadTupleCond`,
order by the dead-tuple ratio descending nulls last, and select
(nspname, relname, dead-tuple ratio). -/
def DEAD_TUPLE_QUERY (threshold : Int) (scale_factor now : ℚ)
    (tables : List PgTable) : List Row :=
  (List.insertionSort (keyOrder (deadScore threshold))
      (tables.filter (deadTupleCond threshold scale_factor now))).map
    (fun t => ⟨t.nspname, t.relname, deadScore threshold t⟩)

/-- INSERTED_TUPLE_QUERY (nightvac.py lines 38-51): filter by
`insertedTupleCond` and select (nspname, relname, insert ratio); its
ORDER BY clause (line 50) reads
`(stat.n_dead_tup - %(threshold)s) / nullif(pg_class.reltuples, 0)`,
i.e. it sorts by the dead-tuple ratio computed with the insert threshold,
not by the selected insert-ratio column of line 42. -/
def INSERTED_TUPLE_QUERY (threshold : Int) (scale_factor now : ℚ)
    (tables : List PgTable) : List Row :=
  (List.insertionSort (keyOrder (deadScore threshold))
      (tables.filter (insertedTupleCond threshold scale_factor now))).map
    (fun t => ⟨t.nspname, t.relname, insertScore threshold t⟩)

/-- FREEZE_AGE_QUERY (nightvac.py lines 54-65): filter by `freezeCond`, order
by `age(relfrozenxid)` descending, select (nspname, relname, age). -/
def FREEZE_AGE_QUERY (freeze_max_age : Int) (tables : List PgTable) : List Row :=
  (List.insertionSort (keyOrder freezeScore)
      (tables.filter (freezeCond freeze_max_age))).map
    (fun t => ⟨t.nspname, t.relname, freezeScore t⟩)

/-- Tag naming each of the three statistics queries, used to record which
queries a run issues. -/
inductive QueryTag
  | freezeQ
  | deadQ
  | insertQ
deriving DecidableEq

/-- Result of the selection phase of `_run` (nightvac.py lines 93-125): the
statistics queries issued, in order, and the three materialized lists. -/
structure Selection where
  issued : List QueryTag
  by_freeze : List Row
  by_dead : List Row
  by_inserted : List Row
deriving DecidableEq

/-- Selection phase of `_run` (nightvac.py lines 93-125): always issue the
freeze-age and dead-tuple queries; issue the insert-volume query only when
`major_version >= 13`, otherwise `by_inserted = []` (line 125). -/
def selectCandidates (tables : List PgTable) (now : ℚ) (args : Args)
    (major_version : Int) : Selection :=
  if major_version ≥ 13 then
    ⟨[QueryTag.freezeQ, QueryTag.deadQ, QueryTag.insertQ],
      FREEZE_AGE_QUERY args.freeze_max_age tables,
      DEAD_TUPLE_QUERY args.threshold args.scale_factor now tables,
      INSERTED_TUPLE_QUERY args.insert_threshold args.insert_scale_factor now tables⟩
  else
    ⟨[QueryTag.freezeQ, QueryTag.deadQ],
      FREEZE_AGE_QUERY args.freeze_max_age tables,
      DEAD_TUPLE_QUERY args.threshold args.scale_factor now tables,
      []⟩

/-- Aggregation `by_freeze + by_dead + by_inserted` of nightvac.py line 127. -/
def workQueue (by_freeze by_dead by_inserted : List Row) : List Row :=
  by_freeze ++ by_dead ++ by_inserted

/-- Maintenance statement rendered by the f-string
`f'VACUUM "namespace"."name"'` of nightvac.py line 129: plain interpolation
of both identifiers between double quotes, with no escaping of quote
characters inside the names. -/
def vacuumStmt (ns rel : String) : String :=
  "VACUUM \"" ++ ns ++ "\".\"" ++ rel ++ "\""

/-- Doubling of embedded double-quote characters in an identifier. -/
def escQuote : List Char → List Char
  | [] => []
  | c :: cs => if c = '"' then '"' :: '"' :: escQuote cs else c :: escQuote cs

/-- Modelled from the spec: strict SQL identifier quoting, which the spec
(§4.3, §6) requires of the maintenance statement but which nightvac.py does
not implement anywhere; embedded `"` characters are doubled so the quoted
identifier always denotes exactly the given name. -/
def quoteIdent (s : String) : String :=
  "\"" ++ String.mk (escQuote s.data) ++ "\""

/-- Modelled from the spec: the maintenance statement under strict identifier
quoting, for comparison with the code's `vacuumStmt`. -/
def vacuumStmtStrict (ns rel : String) : String :=
  "VACUUM " ++ quoteIdent ns ++ "." ++ quoteIdent rel

/-- Terminal state of a run that reaches the executor loop: queue exhausted
(`Completed`) or the budget check tripped and broke the loop (`TimedOut`). -/
inductive Outcome
  | Completed
  | TimedOut
deriving DecidableEq

/-- Executor loop of `_run` (nightvac.py lines 127-132) over an already
materialized queue: for each candidate issue its VACUUM statement, then read
the clock and break when `unix_timestamp() > start + timeout`. `clock k` is
the k-th wall-clock reading of the run (`clock 0` is `start`; the reading
after the k-th vacuum is `clock k`). Returns the VACUUM statements issued, in
order, and the outcome. -/
def executeQueue (clock : Nat → ℚ) (start : ℚ) (timeout : Int) :
    List Row → Nat → List String × Outcome
  | [], _ => ([], Outcome.Completed)
  | row :: rest, k =>
    if clock k > start + (timeout : ℚ) then
      ([vacuumStmt row.nspname row.relname], Outcome.TimedOut)
    else
      (vacuumStmt row.nspname row.relname ::
          (executeQueue clock start timeout rest (k + 1)).1,
        (executeQueue clock start timeout rest (k + 1)).2)

/-- Error raised by the core itself, as opposed to an error propagated from
the database-session or clock capabilities (which, in this model of
never-failing capabilities, are total functions and raise nothing). -/
inductive CoreError
  | attributeError (message : String)
deriving DecidableEq

/-- Environment of a run in which the two consumed capabilities never fail:
the database session always answers (version string, statistics rows, a
`NOW()` value) and the clock always returns a reading. -/
structure Env where
  version : String
  tables : List PgTable
  now : ℚ
  clock : Nat → ℚ

/-- The `_run` driver (nightvac.py lines 73-91 and onward): it records
`start = unix_timestamp()`, fetches `SHOW server_version`, and then executes
line 76, `logging.debut(f"Postgres version: {version}")`. The `logging`
module has no attribute `debut` (the name is a typo for `debug`), so this
attribute lookup raises `AttributeError` unconditionally and nothing after
line 76 — the set_config statements, the selection queries (embedded above as
`selectCandidates`) and the executor loop (embedded above as `executeQueue`)
— is ever reached. -/
def _run (env : Env) (args : Args) : Except CoreError (Outcome × List String) :=
  have _start : ℚ := env.clock 0
  have _version : String := env.version
  Except.error (CoreError.attributeError "module logging has no attribute debut")

/-- Ordering transfer: mapping the ORDER BY key over a list sorted by that key
yields a list of scores sorted descending with nulls last. -/
theorem sorted_by_key (key : PgTable → Option ℚ) (l : List PgTable) :
    List.Sorted scoreDescNullsLast
      ((List.insertionSort (keyOrder key) l).map key) :=
  List.pairwise_map.mpr (List.sorted_insertionSort (keyOrder key) l)

/-- Insert-volume table `public.a`: 100 estimated rows, 2000 inserts since
vacuum (insert ratio 10 at threshold 1000), no dead tuples. -/
def tblA : PgTable := ⟨"public", "a", 'r', 100, 0, 2000, none, 0⟩

/-- Insert-volume table `public.b`: 100 estimated rows, 1500 inserts since
vacuum (insert ratio 5 at threshold 1000), 500 dead tuples. -/
def tblB : PgTable := ⟨"public", "b", 'r', 100, 500, 1500, none, 0⟩

/-- Table sitting exactly on the dead-tuple threshold line:
`n_dead_tup = 55 = 100 * (1/20) + 50`. -/
def tblBoundary : PgTable := ⟨"public", "edge", 'r', 100, 55, 0, none, 0⟩

/-- Table with a zero row-count estimate, whose score must be NULL. -/
def tblZero : PgTable := ⟨"public", "zero", 'r', 0, 500, 0, none, 0⟩

/-- Table numerically qualifying under both volume rules but autovacuumed
1800 seconds (30 minutes) before `now = 10000`. -/
def tblHot : PgTable := ⟨"public", "hot", 'r', 1000, 500, 5000, some 8200, 0⟩

/-- Table with transaction-ID age 200 million, past the default 150 million
freeze limit. -/
def tblOld : PgTable := ⟨"public", "old", 'r', 1000, 0, 0, none, 200000000⟩

/-- C1: with never-failing database and clock capabilities, `_run` does not
terminate in a successful outcome for any profile: it always raises the
core-originated `AttributeError` of line 76 (`logging.debut`, a typo for
`logging.debug`), an error that comes from neither consumed capability. -/
theorem run_always_raises_attribute_error (env : Env) (args : Args) :
    _run env args =
      Except.error (CoreError.attributeError "module logging has no attribute debut")
    ∧ ∀ r : Outcome × List String, _run env args ≠ Except.ok r := by
  exact ⟨rfl, fun r h => by simp [_run] at h⟩

/-- C1 witness: the failure at a concrete environment and the default profile. -/
theorem run_always_raises_attribute_error_witness :
    _run ⟨"12.3", [], 0, fun _ => 0⟩ ⟨"", 1200, 2, 200, 50, 1/20, 1000, 1/10, 150⟩ =
      Except.error (CoreError.attributeError "module logging has no attribute debut") :=
  (run_always_raises_attribute_error ⟨"12.3", [], 0, fun _ => 0⟩
    ⟨"", 1200, 2, 200, 50, 1/20, 1000, 1/10, 150⟩).1

/-- C2: the insert-volume candidate list is NOT ordered by the insert ratio.
Both `public.a` (insert score 10) and `public.b` (insert score 5) qualify at
threshold 1000 and scale factor 1/10, yet the query returns `b` before `a`
because its ORDER BY (line 50) sorts by the dead-tuple ratio copied from
DEAD_TUPLE_QUERY; the score column itself and the selection condition do use
the insert counters as the claim states. -/
theorem inserted_query_not_ordered_by_insert_ratio :
    INSERTED_TUPLE_QUERY 1000 (1/10) 0 [tblA, tblB] =
      [⟨"public", "b", some 5⟩, ⟨"public", "a", some 10⟩]
    ∧ insertScore 1000 tblA = some 10
    ∧ insertScore 1000 tblB = some 5
    ∧ ¬ List.Sorted scoreDescNullsLast
        ((INSERTED_TUPLE_QUERY 1000 (1/10) 0 [tblA, tblB]).map Row.score) := by
  have he : INSERTED_TUPLE_QUERY 1000 (1/10) 0 [tblA, tblB] =
      [⟨"public", "b", some 5⟩, ⟨"public", "a", some 10⟩] := by
    norm_num [INSERTED_TUPLE_QUERY, insertedTupleCond, isOrdinaryKind, cooldownPassed,
      tblA, tblB, deadScore, insertScore, keyOrder, scoreDescNullsLast, scoreDescB,
      List.insertionSort, List.orderedInsert, List.filter_cons]
  refine ⟨he, by norm_num [insertScore, tblA], by norm_num [insertScore, tblB], ?_⟩
  rw [he]
  simp [List.sorted_cons, scoreDescNullsLast, scoreDescB]
  norm_num

/-- C3: the VACUUM statement of line 129 is rendered by plain interpolation,
not strict identifier quoting: the namespace `a"."b` with table `t` renders
to exactly the same statement as the namespace `a` with table `b"."t`, so the
statement does not identify one table and quote characters escape the
identifier position, while under the spec's strict quoting (`quoteIdent`,
which doubles embedded quotes) the two render differently. -/
theorem vacuum_statement_quoting_not_strict :
    vacuumStmt "a\".\"b" "t" = "VACUUM \"a\".\"b\".\"t\""
    ∧ vacuumStmt "a" "b\".\"t" = "VACUUM \"a\".\"b\".\"t\""
    ∧ vacuumStmt "a\".\"b" "t" = vacuumStmt "a" "b\".\"t"
    ∧ vacuumStmtStrict "a\".\"b" "t" ≠ vacuumStmtStrict "a" "b\".\"t"
    ∧ vacuumStmt "a\".\"b" "t" ≠ vacuumStmtStrict "a\".\"b" "t" :=
  ⟨by decide, by decide, by decide, by decide, by decide⟩

/-- C4: the dead-tuple rule selects exactly the rows passing `deadTupleCond`
(relkind filter, strict threshold inequality, cooldown), scored by
`(n_dead_tup - threshold) / reltuples`; a table exactly on the threshold line
is not selected; a zero row-count estimate gives score NULL rather than an
error; and the spec's example (1000 rows, 150 dead, threshold 50, scale
factor 1/20) is selected with score 1/10. -/
theorem dead_tuple_rule_correct (threshold : Int) (scale_factor now : ℚ)
    (tables : List PgTable) (t : PgTable) :
    (DEAD_TUPLE_QUERY threshold scale_factor now tables).Perm
        ((tables.filter (deadTupleCond threshold scale_factor now)).map
          (fun u => (⟨u.nspname, u.relname, deadScore threshold u⟩ : Row)))
    ∧ (deadTupleCond threshold scale_factor now t = true ↔
        (isOrdinaryKind t = true
          ∧ (t.n_dead_tup : ℚ) > t.reltuples * scale_factor + (threshold : ℚ)
          ∧ cooldownPassed now t = true))
    ∧ ((t.n_dead_tup : ℚ) = t.reltuples * scale_factor + (threshold : ℚ) →
        deadTupleCond threshold scale_factor now t = false)
    ∧ (t.reltuples = 0 → deadScore threshold t = none)
    ∧ DEAD_TUPLE_QUERY 50 (1/20) 0 [⟨"public", "events", 'r', 1000, 150, 0, none, 0⟩] =
        [⟨"public", "events", some (1/10)⟩] := by
  refine ⟨(List.perm_insertionSort _ _).map _, ?_, ?_, ?_, ?_⟩
  · simp [deadTupleCond, and_assoc]
  · intro h
    simp [deadTupleCond, h]
  · intro h
    simp [deadScore, h]
  · norm_num [DEAD_TUPLE_QUERY, deadTupleCond, isOrdinaryKind, cooldownPassed,
      deadScore, keyOrder, scoreDescNullsLast, scoreDescB,
      List.insertionSort, List.orderedInsert, List.filter_cons]

/-- C4 witness: the boundary table (55 dead tuples on the line
`100 * (1/20) + 50 = 55`) is rejected, and the zero-estimate table's score is
NULL. -/
theorem dead_tuple_rule_correct_witness :
    deadTupleCond 50 (1/20) 0 tblBoundary = false ∧ deadScore 50 tblZero = none :=
  ⟨(dead_tuple_rule_correct 50 (1/20) 0 [] tblBoundary).2.2.1 (by norm_num [tblBoundary]),
    (dead_tuple_rule_correct 50 (1/20) 0 [] tblZero).2.2.2.1 rfl⟩

/-- C5: the work queue is the concatenation freeze ++ dead ++ inserted: each
per-rule list keeps its internal order at its block's offset, and any
freeze-age candidate (index `j`) precedes any dead-tuple candidate (index
`length f + k`), which precedes any insert-volume candidate, regardless of
scores. -/
theorem work_queue_concatenation_order (f d i : List Row) (j k m : Nat)
    (hj : j < f.length) (hk : k < d.length) (hm : m < i.length) :
    (workQueue f d i)[j]? = f[j]?
    ∧ (workQueue f d i)[f.length + k]? = d[k]?
    ∧ (workQueue f d i)[f.length + d.length + m]? = i[m]?
    ∧ j < f.length + k
    ∧ f.length + k < f.length + d.length + m := by
  unfold workQueue
  refine ⟨?_, ?_, ?_, by omega, by omega⟩
  · have h1 : j < (f ++ d).length := by simp only [List.length_append]; omega
    rw [List.getElem?_append, if_pos h1, List.getElem?_append, if_pos hj]
  · have h1 : f.length + k < (f ++ d).length := by simp only [List.length_append]; omega
    rw [List.getElem?_append, if_pos h1,
      List.getElem?_append_right (Nat.le_add_right f.length k), Nat.add_sub_cancel_left]
  · have h1 : (f ++ d).length ≤ f.length + d.length + m := by
      simp only [List.length_append]; omega
    rw [List.getElem?_append_right h1, List.length_append,
      show f.length + d.length + m - (f.length + d.length) = m from by omega]

/-- C5 witness: with one candidate per rule, the freeze candidate sits at
index 0, the dead-tuple candidate at index 1 and the insert candidate at
index 2, the freeze one first although its score is the smallest. -/
theorem work_queue_concatenation_order_witness :
    (workQueue [⟨"s", "f", some 1⟩] [⟨"s", "d", some 9⟩] [⟨"s", "i", some 5⟩])[0]? =
        ([⟨"s", "f", some 1⟩] : List Row)[0]?
    ∧ (workQueue [⟨"s", "f", some 1⟩] [⟨"s", "d", some 9⟩] [⟨"s", "i", some 5⟩])[([⟨"s", "f", some 1⟩] : List Row).length + 0]? =
        ([⟨"s", "d", some 9⟩] : List Row)[0]?
    ∧ (workQueue [⟨"s", "f", some 1⟩] [⟨"s", "d", some 9⟩] [⟨"s", "i", some 5⟩])[([⟨"s", "f", some 1⟩] : List Row).length + ([⟨"s", "d", some 9⟩] : List Row).length + 0]? =
        ([⟨"s", "i", some 5⟩] : List Row)[0]?
    ∧ 0 < ([⟨"s", "f", some 1⟩] : List Row).length + 0
    ∧ ([⟨"s", "f", some 1⟩] : List Row).length + 0 <
        ([⟨"s", "f", some 1⟩] : List Row).length + ([⟨"s", "d", some 9⟩] : List Row).length + 0 :=
  work_queue_concatenation_order [⟨"s", "f", some 1⟩] [⟨"s", "d", some 9⟩]
    [⟨"s", "i", some 5⟩] 0 0 0 (by simp) (by simp) (by simp)

/-- C6: for the dead-tuple and insert-volume rules, a table whose recorded
last-maintenance timestamp is within the last hour (`now - ts ≤ 3600`) is
excluded even when it qualifies numerically — both conditions evaluate false
and both queries return nothing for it — while a table with no recorded
timestamp is never excluded by the cooldown. -/
theorem cooldown_suppression (dthr ithr : Int) (dsf isf now ts : ℚ) (t : PgTable)
    (hsome : t.last_autovacuum = some ts) (hrecent : now - ts ≤ 3600) :
    deadTupleCond dthr dsf now t = false
    ∧ insertedTupleCond ithr isf now t = false
    ∧ DEAD_TUPLE_QUERY dthr dsf now [t] = []
    ∧ INSERTED_TUPLE_QUERY ithr isf now [t] = []
    ∧ (∀ u : PgTable, u.last_autovacuum = none → cooldownPassed now u = true) := by
  have hcd : cooldownPassed now t = false := by
    simp [cooldownPassed, hsome]
    linarith
  have h1 : deadTupleCond dthr dsf now t = false := by
    simp [deadTupleCond, hcd]
  have h2 : insertedTupleCond ithr isf now t = false := by
    simp [insertedTupleCond, hcd]
  refine ⟨h1, h2, ?_, ?_, ?_⟩
  · simp [DEAD_TUPLE_QUERY, List.filter_cons, h1, List.insertionSort]
  · simp [INSERTED_TUPLE_QUERY, List.filter_cons, h2, List.insertionSort]
  · intro u hu
    simp [cooldownPassed, hu]

/-- C6 witness: `public.hot` (1000 rows, 500 dead, 5000 inserted — far past
both thresholds) was autovacuumed 1800 seconds (30 minutes) before
`now = 10000` and is excluded from both rules. -/
theorem cooldown_suppression_witness :
    deadTupleCond 50 (1/20) 10000 tblHot = false
    ∧ INSERTED_TUPLE_QUERY 1000 (1/10) 10000 [tblHot] = [] := by
  have h := cooldown_suppression 50 1000 (1/20) (1/10) 10000 8200 tblHot rfl (by norm_num)
  exact ⟨h.1, h.2.2.2.1⟩

/-- C7: the deadline is sampled only after each VACUUM returns: when the
first reading after an operation already exceeds `start + timeout`, that
operation's statement is the only one issued — the in-flight operation
finished, no later candidate is ever started — and the outcome is the
successful `TimedOut`. -/
theorem budget_stop_graceful (clock : Nat → ℚ) (start : ℚ) (timeout : Int)
    (a : Row) (rest : List Row) (h : clock 1 > start + (timeout : ℚ)) :
    executeQueue clock start timeout (a :: rest) 1 =
      ([vacuumStmt a.nspname a.relname], Outcome.TimedOut) := by
  simp [executeQueue, h]

/-- C7 witness: three queued candidates with a budget of 10 seconds already
exceeded at the first post-operation clock reading (100 > 0 + 10): exactly
one VACUUM executes and the run times out. -/
theorem budget_stop_graceful_witness :
    executeQueue (fun _ => 100) 0 10
        [⟨"public", "x", none⟩, ⟨"public", "y", none⟩, ⟨"public", "z", none⟩] 1 =
      ([vacuumStmt "public" "x"], Outcome.TimedOut) :=
  budget_stop_graceful (fun _ => 100) 0 10 ⟨"public", "x", none⟩
    [⟨"public", "y", none⟩, ⟨"public", "z", none⟩] (by norm_num)

/-- C8: when the reported major version is below 13, the selection phase
issues no insert-volume query, contributes no insert-volume candidates, and
the work queue is just the freeze-age list followed by the dead-tuple list;
`selectCandidates` is total, so no error is raised. -/
theorem feature_gate_skips_insert_rule (tables : List PgTable) (now : ℚ)
    (args : Args) (mv : Int) (h : mv < 13) :
    selectCandidates tables now args mv =
      ⟨[QueryTag.freezeQ, QueryTag.deadQ],
        FREEZE_AGE_QUERY args.freeze_max_age tables,
        DEAD_TUPLE_QUERY args.threshold args.scale_factor now tables, []⟩
    ∧ (selectCandidates tables now args mv).by_inserted = []
    ∧ QueryTag.insertQ ∉ (selectCandidates tables now args mv).issued
    ∧ workQueue (selectCandidates tables now args mv).by_freeze
        (selectCandidates tables now args mv).by_dead
        (selectCandidates tables now args mv).by_inserted =
      FREEZE_AGE_QUERY args.freeze_max_age tables ++
        DEAD_TUPLE_QUERY args.threshold args.scale_factor now tables := by
  have hc : ¬ (mv ≥ 13) := not_le.mpr h
  refine ⟨by simp [selectCandidates, hc], by simp [selectCandidates, hc], ?_, ?_⟩
  · simp [selectCandidates, hc]
  · simp [selectCandidates, hc, workQueue]

/-- C8 witness: against major version 12 with an empty catalog and default
thresholds, the insert list is empty and the insert query is not issued. -/
theorem feature_gate_skips_insert_rule_witness :
    (selectCandidates [] 0 ⟨"", 1200, 2, 200, 50, 1/20, 1000, 1/10, 150⟩ 12).by_inserted = []
    ∧ QueryTag.insertQ ∉
        (selectCandidates [] 0 ⟨"", 1200, 2, 200, 50, 1/20, 1000, 1/10, 150⟩ 12).issued := by
  have h := feature_gate_skips_insert_rule [] 0
    ⟨"", 1200, 2, 200, 50, 1/20, 1000, 1/10, 150⟩ 12 (by norm_num)
  exact ⟨h.2.1, h.2.2.1⟩

/-- C9: the freeze-age rule selects exactly the row-storing tables whose
transaction-ID age strictly exceeds `freeze_max_age * 1000000`, assigns the
age itself as score, returns its list ordered by that score descending, and
its condition is independent of the last-maintenance timestamp (no
cooldown). -/
theorem freeze_age_rule_correct (freeze_max_age : Int) (tables : List PgTable)
    (t : PgTable) (lav : Option ℚ) :
    (FREEZE_AGE_QUERY freeze_max_age tables).Perm
        ((tables.filter (freezeCond freeze_max_age)).map
          (fun u => (⟨u.nspname, u.relname, some ((u.relfrozenxid_age : ℚ))⟩ : Row)))
    ∧ List.Sorted scoreDescNullsLast
        ((FREEZE_AGE_QUERY freeze_max_age tables).map Row.score)
    ∧ (freezeCond freeze_max_age t = true ↔
        (isOrdinaryKind t = true ∧ t.relfrozenxid_age > freeze_max_age * 1000000))
    ∧ freezeCond freeze_max_age { t with last_autovacuum := lav } =
        freezeCond freeze_max_age t := by
  refine ⟨(List.perm_insertionSort _ _).map _, ?_, ?_, ?_⟩
  · rw [FREEZE_AGE_QUERY, List.map_map]
    exact sorted_by_key freezeScore _
  · simp [freezeCond]
  · simp [freezeCond, isOrdinaryKind]

/-- C9 witness: `public.old` (age 200 million, limit 150 million) is selected
with its age as score whether or not a recent maintenance pass is recorded,
and the query output for it is sorted. -/
theorem freeze_age_rule_correct_witness :
    freezeCond 150 { tblOld with last_autovacuum := some 9999 } = freezeCond 150 tblOld
    ∧ List.Sorted scoreDescNullsLast ((FREEZE_AGE_QUERY 150 [tblOld]).map Row.score) := by
  have h := freeze_age_rule_correct 150 [tblOld] tblOld (some 9999)
  exact ⟨h.2.2.2, h.2.1⟩

/-- C10: the executor loop reads the clock only after an operation completes,
so on a non-empty queue the first candidate's VACUUM is always issued — even
when the budget is 0 or already exhausted before the loop starts — and when
the first post-operation reading already exceeds the deadline, that VACUUM is
the only one issued and the run ends `TimedOut`. -/
theorem first_candidate_always_vacuumed (clock : Nat → ℚ) (start : ℚ)
    (timeout : Int) (a : Row) (rest : List Row) :
    1 ≤ (executeQueue clock start timeout (a :: rest) 1).1.length
    ∧ (executeQueue clock start timeout (a :: rest) 1).1.head? =
        some (vacuumStmt a.nspname a.relname)
    ∧ (clock 1 > start + (timeout : ℚ) →
        executeQueue clock start timeout (a :: rest) 1 =
          ([vacuumStmt a.nspname a.relname], Outcome.TimedOut)) := by
  by_cases h : clock 1 > start + (timeout : ℚ)
  · refine ⟨?_, ?_, fun _ => ?_⟩ <;> simp [executeQueue, h]
  · refine ⟨?_, ?_, fun hc => absurd hc h⟩ <;> simp [executeQueue, h]

/-- C10 witness: a zero-second budget already exceeded before the loop
(clock reads 5 > 0 + 0): the first of the two queued candidates is still
vacuumed, exactly once, and the run ends `TimedOut`. -/
theorem first_candidate_always_vacuumed_witness :
    executeQueue (fun _ => 5) 0 0 [⟨"s", "w", none⟩, ⟨"s", "v", none⟩] 1 =
      ([vacuumStmt "s" "w"], Outcome.TimedOut) :=
  (first_candidate_always_vacuumed (fun _ => 5) 0 0 ⟨"s", "w", none⟩
    [⟨"s", "v", none⟩]).2.2 (by norm_num)

end Nightvac
